import Mathlib

/-!
# ScholarQuery (`src/app.py`) — a shallow embedding

The repository is a single-file Streamlit front-end over a Weaviate vector
store.  This file embeds its query-construction and result-presentation
logic:

* filter construction from the sidebar selections (`app.py` lines 62–73);
* the rerank directive (`app.py` lines 99–113);
* the top-k slider (`app.py` lines 86–92);
* per-result projection `display_result` (`app.py` lines 134–164);
* the mode dispatch `run_search` (`app.py` lines 167–233).

The external store (Weaviate client) is modelled as an uninterpreted
function from the issued call to a response; floats are modelled as `ℚ`;
Python exceptions are modelled with `Except` / explicit error components.
Python truthiness of the optional values that the code branches on is
modelled explicitly (`None` and empty strings / lists / `0.0` are falsy).
-/

namespace ScholarQuery

/-- Wire shape of a Weaviate filter tree, per the client contract used by
`app.py`: `Filter.by_property(p).equal(v)`, `Filter.by_property(p).contains_any(vs)`
and `Filter.all_of(list)` (an AND node over the given list). -/
inductive WFilter where
  | equal (prop : String) (value : String)
  | containsAny (prop : String) (values : List String)
  | allOf (filters : List WFilter)
deriving Repr

/-- Python truthiness of an `Optional[str]`: `None` and `""` are falsy. -/
def optStrTruthy : Option String → Bool
  | none => false
  | some s => !s.isEmpty

/-- Lines 62–68 of `app.py`: the list `selected_filters`.  A book clause is
appended when `selected_book` is truthy, then a topic clause when
`selected_topics` is a non-empty list. -/
def selected_filters (selected_book : Option String) (selected_topics : List String) :
    List WFilter :=
  (if optStrTruthy selected_book then [WFilter.equal "book" (selected_book.getD "")] else [])
    ++ (if selected_topics.isEmpty then [] else [WFilter.containsAny "topic" selected_topics])

/-- Lines 70–73 of `app.py`: `final_filters = Filter.all_of(selected_filters)` when
the list is non-empty, else `None`. -/
def final_filters (selected_book : Option String) (selected_topics : List String) :
    Option WFilter :=
  let sf := selected_filters selected_book selected_topics
  if sf.isEmpty then none else some (WFilter.allOf sf)

/-- The Weaviate `Rerank(prop=..., query=...)` directive. -/
structure RerankDirective where
  prop : String
  query : String
deriving Repr, DecidableEq

/-- Lines 99–113 of `app.py`: `rerank` starts as `None`; when the toggle is on and
the rerank query text is truthy (non-empty) it becomes
`Rerank(prop="text", query=rerank_query)`. -/
def rerank (rerank_choice : Bool) (rerank_query : String) : Option RerankDirective :=
  if rerank_choice then
    if rerank_query.isEmpty then none
    else some ⟨"text", rerank_query⟩
  else none

/-- Contract of the Streamlit slider widget configured at `app.py` lines 86–92:
whatever position the user interaction requests, the value the widget yields
lies within the configured `[min_value, max_value]` bounds. -/
def slider_value (minValue maxValue requested : Int) : Int :=
  max minValue (min maxValue requested)

/-- Lines 86–92 of `app.py`: the top-k slider, bounds 1 and 10 (default 5). -/
def top_k (requested : Int) : Int :=
  slider_value 1 10 requested

/-- Python `int(s)` on a decimal string: optional sign followed by one or more
digits (whitespace/underscore forms do not occur in the inputs at issue);
raises — here `none` — on anything else, including the empty string. -/
def parsePyInt (s : String) : Option Int :=
  let digits (t : List Char) : Option Nat :=
    if t.isEmpty then none
    else if t.all Char.isDigit then
      some (t.foldl (fun acc c => acc * 10 + (c.toNat - 48)) 0)
    else none
  match s.toList with
  | '-' :: rest => (digits rest).map (fun n => -(n : Int))
  | '+' :: rest => (digits rest).map (fun n => (n : Int))
  | l => (digits l).map (fun n => (n : Int))

/-- Lines 140–141 of `app.py`: `int(result.properties["page"][1:])` — drop the
one-character leading marker, then parse the remainder as a base-10 integer. -/
def parseMarked (s : String) : Option Int :=
  parsePyInt (s.drop 1)

/-- One retrieved item as the store returns it: the property bag read by
`display_result`, the similarity metadata, and the per-item generated text
(present only in Explained mode). -/
structure RawResult where
  text : String
  topic : String
  book : String
  author : String
  page : String
  volume : String
  distance : ℚ
  rerank_score : Option ℚ
  generated : Option String
deriving Repr

/-- Python truthiness of an `Optional[float]`: `None` and `0.0` are falsy. -/
def optRatTruthy : Option ℚ → Bool
  | none => false
  | some q => decide (q ≠ 0)

/-- The normalized per-result projection rendered by `display_result`:
`reranked_relevance` holds the displayed reranked percentage, or `none` when
the reranked-relevance line is not displayed. -/
structure DisplayRecord where
  relevance : ℚ
  reranked_relevance : Option ℚ
  topic : String
  book : String
  author : String
  page : Int
  volume : Int
  text : String
deriving Repr

/-- Lines 134–164 of `app.py` (`display_result`): parse page and volume (an
unparsable field raises `ValueError`, modelled as `Except.error`); compute
`relevance = (1 - distance / 2) * 100`; display the reranked-relevance line
only under the Python-truthiness test `rerank_choice and rerank_score`
(line 154), with value `rerank_score * 100`.  The on-screen strings round the
percentages to one decimal for printing; the record keeps the computed
values. -/
def display_result (result : RawResult) (rerank_choice : Bool) :
    Except String DisplayRecord :=
  match parseMarked result.page with
  | none => .error "invalid literal for int() with base 10: page"
  | some page =>
    match parseMarked result.volume with
    | none => .error "invalid literal for int() with base 10: volume"
    | some volume =>
      let relevance : ℚ := (1 - result.distance / 2) * 100
      let reranked_relevance : Option ℚ := result.rerank_score.map (· * 100)
      .ok
        { relevance := relevance
          reranked_relevance :=
            if rerank_choice && optRatTruthy result.rerank_score then reranked_relevance
            else none
          topic := result.topic
          book := result.book
          author := result.author
          page := page
          volume := volume
          text := result.text }

/-- The rendering loop of each `run_search` branch: results are rendered in
order and a parse failure inside `display_result` raises an uncaught
exception, aborting the loop.  The output is the list of records actually
rendered (an initial segment of the input) paired with the error, if one was
raised.  `withGenerated` is true only in Explained mode, where
`result.generated` is written directly below each result (`app.py` line 192). -/
def render_results (rerank_choice : Bool) (withGenerated : Bool) :
    List RawResult → List (DisplayRecord × Option String) × Option String
  | [] => ([], none)
  | r :: rs =>
    match display_result r rerank_choice with
    | .error e => ([], some e)
    | .ok d =>
      let rest := render_results rerank_choice withGenerated rs
      ((d, if withGenerated then r.generated else none) :: rest.1, rest.2)

/-- The three store calls `run_search` can issue: `query.near_text` (plain
semantic), `generate.near_text` with `single_prompt` (Explained), and
`generate.near_text` with `grouped_task` (Summary). -/
inductive CallKind where
  | nearText
  | generateSingle
  | generateGrouped
deriving Repr, DecidableEq

/-- The arguments all three calls share: `query`, `limit`, `filters`,
`rerank` (each branch of `run_search` forwards the same module-level
values). -/
structure CallArgs where
  query : String
  limit : Int
  filters : Option WFilter
  rerank : Option RerankDirective
deriving Repr

/-- A store response: the result objects, and the response-level generated
text (the grouped summary, present only for a `grouped_task` call). -/
structure StoreResponse where
  objects : List RawResult
  generated : Option String
deriving Repr

/-- What one `run_search` invocation paints into the page, as far as the
specified behaviour is concerned. -/
structure Rendered where
  /-- The grouped summary written at `app.py` lines 210–211, shown only when
  `response.generated` is truthy (not `None`, not `""`). -/
  grouped_summary : Option String
  /-- The per-result projections actually rendered, each with the generated
  text written below it (Explained mode only). -/
  results : List (DisplayRecord × Option String)
  /-- The uncaught parse error, if rendering was aborted by one. -/
  render_error : Option String
  /-- Whether "No results found." was written (`response.objects` falsy). -/
  no_results_message : Bool
deriving Repr

/-- Python truthiness guard on the `Optional[str]` `response.generated` at
`app.py` line 210. -/
def groupedSummaryShown : Option String → Option String
  | none => none
  | some g => if g.isEmpty then none else some g

/-- Lines 167–233 of `app.py` (`run_search`): dispatch on `search_mode` with
string comparisons — `"Explained Search"`, then `"Summary Generation Search"`,
else the plain `query.near_text` branch.  The external store is an
uninterpreted function from the issued call to its response.  The returned
first component records every store call the invocation issued. -/
def run_search (store : CallKind → CallArgs → StoreResponse)
    (search_mode query : String) (tk : Int)
    (filters : Option WFilter) (rr : Option RerankDirective)
    (rerank_choice : Bool) : List (CallKind × CallArgs) × Rendered :=
  let args : CallArgs := ⟨query, tk, filters, rr⟩
  if search_mode = "Explained Search" then
    let response := store .generateSingle args
    let rendered := render_results rerank_choice true response.objects
    ([(.generateSingle, args)],
      ⟨none, rendered.1, rendered.2, response.objects.isEmpty⟩)
  else if search_mode = "Summary Generation Search" then
    let response := store .generateGrouped args
    let rendered := render_results rerank_choice false response.objects
    ([(.generateGrouped, args)],
      ⟨groupedSummaryShown response.generated, rendered.1, rendered.2,
        response.objects.isEmpty⟩)
  else
    let response := store .nearText args
    let rendered := render_results rerank_choice false response.objects
    ([(.nearText, args)],
      ⟨none, rendered.1, rendered.2, response.objects.isEmpty⟩)

/-- A well-formed raw result for concrete checks: page `"p12"`, volume `"v3"`,
distance 1, rerank score exactly `0.0`, no generated text. -/
def sampleResult : RawResult :=
  { text := "t", topic := "T", book := "B", author := "A", page := "p12", volume := "v3",
    distance := 1, rerank_score := some 0, generated := none }

/-- A raw result whose page field `"px"` is malformed. -/
def badResult : RawResult :=
  { sampleResult with page := "px" }

/-- A well-formed raw result carrying a non-zero rerank score and generated
text. -/
def rerankedResult : RawResult :=
  { sampleResult with rerank_score := some 1, generated := some "gen" }

/-- A concrete store for concrete checks: one object per call and a grouped
summary for the grouped call. -/
def sampleStore : CallKind → CallArgs → StoreResponse
  | .generateSingle, _ => ⟨[rerankedResult], none⟩
  | .generateGrouped, _ => ⟨[sampleResult], some "SUM"⟩
  | .nearText, _ => ⟨[sampleResult], none⟩

/-- Inversion for a successful projection: both marked fields parsed and the
record is exactly the one `display_result` builds. -/
theorem display_result_eq_ok (res : RawResult) (rc : Bool) (d : DisplayRecord)
    (h : display_result res rc = .ok d) :
    ∃ page volume, parseMarked res.page = some page ∧ parseMarked res.volume = some volume ∧
      d = { relevance := (1 - res.distance / 2) * 100,
            reranked_relevance :=
              if rc && optRatTruthy res.rerank_score then res.rerank_score.map (· * 100)
              else none,
            topic := res.topic, book := res.book, author := res.author,
            page := page, volume := volume, text := res.text } := by
  unfold display_result at h
  cases hp : parseMarked res.page with
  | none => rw [hp] at h; exact absurd h (by simp)
  | some page =>
    cases hv : parseMarked res.volume with
    | none => rw [hp, hv] at h; exact absurd h (by simp)
    | some volume =>
      rw [hp, hv] at h
      injection h with h
      exact ⟨page, volume, rfl, rfl, h.symm⟩

/-- Every rendered pair comes from an input result that projected
successfully, with the generated text attached exactly in Explained mode. -/
theorem render_results_mem (rc wg : Bool) (l : List RawResult) :
    ∀ p ∈ (render_results rc wg l).1, ∃ r ∈ l,
      display_result r rc = .ok p.1 ∧ p.2 = (if wg then r.generated else none) := by
  induction l with
  | nil => intro p hp; simp [render_results] at hp
  | cons r rs ih =>
    intro p hp
    rw [render_results] at hp
    cases hd : display_result r rc with
    | error e => rw [hd] at hp; simp at hp
    | ok d =>
      rw [hd] at hp
      simp only [List.mem_cons] at hp
      rcases hp with h | h
      · exact ⟨r, List.mem_cons_self r rs, by rw [h]; exact ⟨hd, rfl⟩⟩
      · obtain ⟨r', hr', h1, h2⟩ := ih p h
        exact ⟨r', List.mem_cons_of_mem _ hr', h1, h2⟩

/-- The number of rendered results equals the length of the longest initial
segment of the response on which projection succeeds. -/
theorem render_results_length (rc wg : Bool) (l : List RawResult) :
    (render_results rc wg l).1.length =
      (l.takeWhile fun r => (display_result r rc).toOption.isSome).length := by
  induction l with
  | nil => rfl
  | cons r rs ih =>
    rw [render_results]
    cases hd : display_result r rc <;>
      simp [hd, List.takeWhile_cons, Except.toOption, ih]

/-- Rendering finishes without an uncaught error exactly when every result in
the response projects successfully. -/
theorem render_results_error_none (rc wg : Bool) (l : List RawResult) :
    (render_results rc wg l).2 = none ↔
      ∀ r ∈ l, (display_result r rc).toOption.isSome = true := by
  induction l with
  | nil => simp [render_results]
  | cons r rs ih =>
    rw [render_results]
    cases hd : display_result r rc <;>
      simp [hd, Except.toOption, ih]

/-- Unfolding of the Explained branch of `run_search`. -/
theorem run_search_explained_eq (store : CallKind → CallArgs → StoreResponse)
    (q : String) (tk : Int) (ff : Option WFilter) (rr : Option RerankDirective) (rc : Bool) :
    run_search store "Explained Search" q tk ff rr rc =
      ([(.generateSingle, ⟨q, tk, ff, rr⟩)],
        ⟨none, (render_results rc true (store .generateSingle ⟨q, tk, ff, rr⟩).objects).1,
          (render_results rc true (store .generateSingle ⟨q, tk, ff, rr⟩).objects).2,
          (store .generateSingle ⟨q, tk, ff, rr⟩).objects.isEmpty⟩) := rfl

/-- Unfolding of the Summary branch of `run_search`. -/
theorem run_search_summary_eq (store : CallKind → CallArgs → StoreResponse)
    (q : String) (tk : Int) (ff : Option WFilter) (rr : Option RerankDirective) (rc : Bool) :
    run_search store "Summary Generation Search" q tk ff rr rc =
      ([(.generateGrouped, ⟨q, tk, ff, rr⟩)],
        ⟨groupedSummaryShown (store .generateGrouped ⟨q, tk, ff, rr⟩).generated,
          (render_results rc false (store .generateGrouped ⟨q, tk, ff, rr⟩).objects).1,
          (render_results rc false (store .generateGrouped ⟨q, tk, ff, rr⟩).objects).2,
          (store .generateGrouped ⟨q, tk, ff, rr⟩).objects.isEmpty⟩) := rfl

/-- Unfolding of the plain Semantic branch of `run_search`. -/
theorem run_search_semantic_eq (store : CallKind → CallArgs → StoreResponse)
    (q : String) (tk : Int) (ff : Option WFilter) (rr : Option RerankDirective) (rc : Bool) :
    run_search store "Semantic Search" q tk ff rr rc =
      ([(.nearText, ⟨q, tk, ff, rr⟩)],
        ⟨none, (render_results rc false (store .nearText ⟨q, tk, ff, rr⟩).objects).1,
          (render_results rc false (store .nearText ⟨q, tk, ff, rr⟩).objects).2,
          (store .nearText ⟨q, tk, ff, rr⟩).objects.isEmpty⟩) := rfl

/-- Any mode other than the two generative option strings takes the final
`else` branch. -/
theorem run_search_default_eq (store : CallKind → CallArgs → StoreResponse)
    (mode q : String) (tk : Int) (ff : Option WFilter) (rr : Option RerankDirective) (rc : Bool)
    (h1 : mode ≠ "Explained Search") (h2 : mode ≠ "Summary Generation Search") :
    run_search store mode q tk ff rr rc =
      ([(.nearText, ⟨q, tk, ff, rr⟩)],
        ⟨none, (render_results rc false (store .nearText ⟨q, tk, ff, rr⟩).objects).1,
          (render_results rc false (store .nearText ⟨q, tk, ff, rr⟩).objects).2,
          (store .nearText ⟨q, tk, ff, rr⟩).objects.isEmpty⟩) := by
  unfold run_search
  rw [if_neg h1, if_neg h2]

/-- Every invocation of `run_search` issues exactly one store call, and it
carries the forwarded arguments. -/
theorem run_search_calls (store : CallKind → CallArgs → StoreResponse)
    (mode q : String) (tk : Int) (ff : Option WFilter) (rr : Option RerankDirective)
    (rc : Bool) :
    ∃ k : CallKind, (run_search store mode q tk ff rr rc).1 = [(k, ⟨q, tk, ff, rr⟩)] := by
  unfold run_search
  split_ifs <;> exact ⟨_, rfl⟩

/-- C1: for every search request exactly one retrieval strategy executes,
selected by the mode: the Explained branch issues the single-prompt generative
call, attaches each result's generated text below it and shows no grouped
summary; the Summary branch issues the grouped generative call, shows the one
grouped summary the store returned and no per-result generated text; the
Semantic branch issues the plain nearest-neighbor call and shows neither. -/
theorem mode_dispatch_mutually_exclusive
    (store : CallKind → CallArgs → StoreResponse) (q : String) (tk : Int)
    (ff : Option WFilter) (rr : Option RerankDirective) (rc : Bool) :
    ((run_search store "Explained Search" q tk ff rr rc).1 =
        [(.generateSingle, ⟨q, tk, ff, rr⟩)] ∧
      (run_search store "Explained Search" q tk ff rr rc).2.grouped_summary = none ∧
      ∀ p ∈ (run_search store "Explained Search" q tk ff rr rc).2.results,
        ∃ r ∈ (store .generateSingle ⟨q, tk, ff, rr⟩).objects,
          display_result r rc = .ok p.1 ∧ p.2 = r.generated) ∧
    ((run_search store "Summary Generation Search" q tk ff rr rc).1 =
        [(.generateGrouped, ⟨q, tk, ff, rr⟩)] ∧
      (∀ g, (store .generateGrouped ⟨q, tk, ff, rr⟩).generated = some g → g ≠ "" →
        (run_search store "Summary Generation Search" q tk ff rr rc).2.grouped_summary =
          some g) ∧
      ∀ p ∈ (run_search store "Summary Generation Search" q tk ff rr rc).2.results,
        p.2 = none) ∧
    ((run_search store "Semantic Search" q tk ff rr rc).1 =
        [(.nearText, ⟨q, tk, ff, rr⟩)] ∧
      (run_search store "Semantic Search" q tk ff rr rc).2.grouped_summary = none ∧
      ∀ p ∈ (run_search store "Semantic Search" q tk ff rr rc).2.results, p.2 = none) := by
  refine ⟨⟨rfl, rfl, ?_⟩, ⟨rfl, ?_, ?_⟩, ⟨rfl, rfl, ?_⟩⟩
  · intro p hp
    rw [run_search_explained_eq store q tk ff rr rc] at hp
    obtain ⟨r, hr, h1, h2⟩ := render_results_mem rc true _ p hp
    exact ⟨r, hr, h1, by simpa using h2⟩
  · intro g hg hne
    simp only [run_search_summary_eq store q tk ff rr rc]
    rw [hg]
    simp [groupedSummaryShown, String.isEmpty_iff, hne]
  · intro p hp
    rw [run_search_summary_eq store q tk ff rr rc] at hp
    obtain ⟨r, hr, h1, h2⟩ := render_results_mem rc false _ p hp
    simpa using h2
  · intro p hp
    rw [run_search_semantic_eq store q tk ff rr rc] at hp
    obtain ⟨r, hr, h1, h2⟩ := render_results_mem rc false _ p hp
    simpa using h2

/-- Witness for C1 at a concrete store: the Summary branch shows the grouped
summary the store returned. -/
theorem mode_dispatch_mutually_exclusive_witness :
    (run_search sampleStore "Summary Generation Search" "q" 5 none none false).2.grouped_summary =
      some "SUM" :=
  (mode_dispatch_mutually_exclusive sampleStore "q" 5 none none false).2.1.2.1 "SUM" rfl
    (by decide)

/-- C2 counterexample: selecting only a book does not yield the bare
`Equal(book, b)` node — the code wraps the singleton list in `Filter.all_of`. -/
theorem book_only_filter_is_wrapped :
    final_filters (some "BookA") [] ≠ some (WFilter.equal "book" "BookA") := by
  intro h
  exact WFilter.noConfusion (Option.some.inj h)

/-- C2 (amended): all four selection combinations, with the non-empty clause
list always wrapped in an `AllOf` node: book only gives
`AllOf([Equal(book,b)])`, topics only `AllOf([ContainsAny(topic,T)])`, both
`AllOf([Equal(book,b), ContainsAny(topic,T)])`, neither no filter. -/
theorem final_filters_all_combinations :
    (∀ b : String, b ≠ "" → final_filters (some b) [] =
        some (.allOf [.equal "book" b])) ∧
    (∀ ts : List String, ts ≠ [] → final_filters none ts =
        some (.allOf [.containsAny "topic" ts])) ∧
    (∀ (b : String) (ts : List String), b ≠ "" → ts ≠ [] →
      final_filters (some b) ts =
        some (.allOf [.equal "book" b, .containsAny "topic" ts])) ∧
    final_filters none [] = none := by
  refine ⟨?_, ?_, ?_, rfl⟩
  · intro b hb
    simp [final_filters, selected_filters, optStrTruthy, String.isEmpty_iff, hb]
  · intro ts hts
    simp [final_filters, selected_filters, optStrTruthy, hts]
  · intro b ts hb hts
    have hb' : b.isEmpty = false := by
      simp [Bool.eq_false_iff, String.isEmpty_iff, hb]
    simp [final_filters, selected_filters, optStrTruthy, hb', hts]

/-- Witness for C2 (amended) at the spec's own end-to-end example. -/
theorem final_filters_all_combinations_witness :
    final_filters (some "BookA") ["History"] =
      some (.allOf [.equal "book" "BookA", .containsAny "topic" ["History"]]) :=
  final_filters_all_combinations.2.2.1 "BookA" ["History"] (by decide) (by decide)

/-- C3 counterexample: with an empty query text the Semantic branch still
issues its nearest-neighbor call (the claim says no call is issued). -/
theorem empty_query_still_issues_call :
    (run_search sampleStore "Semantic Search" "" 5 none none false).1 =
      [(.nearText, ⟨"", 5, none, none⟩)] ∧
    (run_search sampleStore "Semantic Search" "" 5 none none false).1.length = 1 :=
  ⟨rfl, rfl⟩

/-- C3 (amended): if the query text is empty the retrieval call is issued
anyway, carrying the empty query, and the caller is told no results are
available exactly when the store returns an empty object list. -/
theorem empty_query_call_issued_anyway (store : CallKind → CallArgs → StoreResponse)
    (mode : String) (tk : Int) (ff : Option WFilter) (rr : Option RerankDirective)
    (rc : Bool) :
    ∃ k : CallKind,
      (run_search store mode "" tk ff rr rc).1 = [(k, ⟨"", tk, ff, rr⟩)] ∧
      (run_search store mode "" tk ff rr rc).2.no_results_message =
        (store k ⟨"", tk, ff, rr⟩).objects.isEmpty := by
  unfold run_search
  split_ifs with h1 h2
  · exact ⟨.generateSingle, rfl, rfl⟩
  · exact ⟨.generateGrouped, rfl, rfl⟩
  · exact ⟨.nearText, rfl, rfl⟩

/-- C4 counterexample: a malformed first result (`"px"` page) aborts rendering,
so the well-formed second result is not rendered either. -/
theorem malformed_result_blocks_rest :
    (display_result sampleResult false).toOption.isSome = true ∧
    (display_result badResult false).toOption.isSome = false ∧
    (render_results false false [badResult, sampleResult]).1 = [] ∧
    (render_results false false [badResult, sampleResult]).2.isSome = true :=
  ⟨rfl, rfl, rfl, rfl⟩

/-- C4 (amended): well-formed fields parse as expected (`"p12"` gives 12,
`"v3"` gives 3, `"px"` fails); a failing projection raises an uncaught parse
error that aborts the loop, so exactly the longest initial segment of
successfully projecting results is rendered, and no error is raised exactly
when every result projects. -/
theorem parse_and_render_abort :
    parseMarked "p12" = some 12 ∧ parseMarked "v3" = some 3 ∧ parseMarked "px" = none ∧
    ∀ (rc wg : Bool) (l : List RawResult),
      (render_results rc wg l).1.length =
        (l.takeWhile fun r => (display_result r rc).toOption.isSome).length ∧
      ((render_results rc wg l).2 = none ↔
        ∀ r ∈ l, (display_result r rc).toOption.isSome = true) :=
  ⟨by decide, by decide, by decide, fun rc wg l =>
    ⟨render_results_length rc wg l, render_results_error_none rc wg l⟩⟩

/-- Witness for C4 (amended) on a concrete malformed-then-well-formed list. -/
theorem parse_and_render_abort_witness :
    (render_results false false [badResult, sampleResult]).1.length =
      ([badResult, sampleResult].takeWhile
        fun r => (display_result r false).toOption.isSome).length :=
  (parse_and_render_abort.2.2.2 false false [badResult, sampleResult]).1

/-- C5: for every successfully projected result the relevance percentage is
`(1 - distance / 2) * 100`; for distances in `[0, 2]` it lies in `[0, 100]`,
with 100 at distance 0, 50 at distance 1 and 0 at distance 2. -/
theorem relevance_formula (res : RawResult) (rc : Bool) (d : DisplayRecord)
    (h : display_result res rc = .ok d)
    (h0 : 0 ≤ res.distance) (h2 : res.distance ≤ 2) :
    d.relevance = (1 - res.distance / 2) * 100 ∧
    (0 ≤ d.relevance ∧ d.relevance ≤ 100) ∧
    (res.distance = 0 → d.relevance = 100) ∧
    (res.distance = 1 → d.relevance = 50) ∧
    (res.distance = 2 → d.relevance = 0) := by
  obtain ⟨page, volume, hp, hv, hd⟩ := display_result_eq_ok res rc d h
  have hrel : d.relevance = (1 - res.distance / 2) * 100 := by rw [hd]
  refine ⟨hrel, ⟨?_, ?_⟩, ?_, ?_, ?_⟩
  · rw [hrel]; nlinarith
  · rw [hrel]; nlinarith
  · intro h1; rw [hrel, h1]; norm_num
  · intro h1; rw [hrel, h1]; norm_num
  · intro h1; rw [hrel, h1]; norm_num

/-- Witness for C5 at distance 1: the displayed relevance is 50. -/
theorem relevance_formula_witness :
    ∃ d, display_result sampleResult true = Except.ok d ∧ d.relevance = 50 := by
  obtain ⟨d, hd⟩ : ∃ d, display_result sampleResult true = Except.ok d := ⟨_, rfl⟩
  exact ⟨d, hd,
    (relevance_formula sampleResult true d hd (by decide) (by decide)).2.2.2.1 rfl⟩

/-- C6 counterexample: reranking was requested and the store returned a rerank
score (`0.0`), yet the reranked-relevance line is absent — the claim's
"absent exactly when not requested or no score" fails at score `0.0`. -/
theorem zero_score_reranked_line_absent :
    ∃ d, display_result sampleResult true = Except.ok d ∧
      d.reranked_relevance = none ∧ sampleResult.rerank_score = some 0 :=
  ⟨_, rfl, rfl, rfl⟩

/-- C6 (amended): the displayed reranked relevance is `score * 100`, and the
line is absent exactly when reranking was not requested, the store returned no
score, or the returned score equals 0. -/
theorem reranked_relevance_display (res : RawResult) (rc : Bool) (d : DisplayRecord)
    (h : display_result res rc = .ok d) :
    (d.reranked_relevance = none ↔
      rc = false ∨ res.rerank_score = none ∨ res.rerank_score = some 0) ∧
    ∀ s : ℚ, res.rerank_score = some s → rc = true → s ≠ 0 →
      d.reranked_relevance = some (s * 100) := by
  obtain ⟨page, volume, hp, hv, hd⟩ := display_result_eq_ok res rc d h
  subst hd
  constructor
  · cases rc with
    | false => simp [optRatTruthy]
    | true =>
      cases hs : res.rerank_score with
      | none => simp [optRatTruthy]
      | some s =>
        by_cases h0 : s = 0
        · subst h0; simp [optRatTruthy]
        · simp [optRatTruthy, h0]
  · intro s hs hrc h0
    subst hrc
    rw [hs]
    simp [optRatTruthy, h0]

/-- Witness for C6 (amended) at a score of 1 with reranking requested. -/
theorem reranked_relevance_display_witness :
    ∃ d, display_result rerankedResult true = Except.ok d ∧
      d.reranked_relevance = some (1 * 100) := by
  obtain ⟨d, hd⟩ : ∃ d, display_result rerankedResult true = Except.ok d := ⟨_, rfl⟩
  exact ⟨d, hd,
    (reranked_relevance_display rerankedResult true d hd).2 1 rfl rfl (by decide)⟩

/-- C7: a rerank directive exists exactly when the toggle is on and the rerank
text is non-empty, it targets the `text` property with that query, and every
issued store call carries the rerank value unchanged — in particular, toggle
on with empty text sends no directive. -/
theorem rerank_directive_iff (c : Bool) (q : String) :
    (rerank c q = some ⟨"text", q⟩ ↔ c = true ∧ q ≠ "") ∧
    (rerank c q = none ↔ c = false ∨ q = "") ∧
    ∀ (store : CallKind → CallArgs → StoreResponse) (mode qt : String) (tk : Int)
      (ff : Option WFilter),
      ∀ call ∈ (run_search store mode qt tk ff (rerank c q) c).1,
        call.2.rerank = rerank c q := by
  refine ⟨?_, ?_, ?_⟩
  · cases c with
    | false => simp [rerank]
    | true =>
      by_cases hq : q = ""
      · subst hq; simp [rerank, String.isEmpty_iff]
      · simp [rerank, String.isEmpty_iff, hq]
  · cases c with
    | false => simp [rerank]
    | true =>
      by_cases hq : q = ""
      · subst hq; simp [rerank, String.isEmpty_iff]
      · simp [rerank, String.isEmpty_iff, hq]
  · intro store mode qt tk ff call hcall
    obtain ⟨k, hk⟩ := run_search_calls store mode qt tk ff (rerank c q) c
    rw [hk] at hcall
    simp only [List.mem_singleton] at hcall
    subst hcall
    rfl

/-- Witness for C7: toggle on with empty rerank text yields no directive. -/
theorem rerank_directive_iff_witness :
    rerank true "" = none :=
  (rerank_directive_iff true "").2.1.mpr (Or.inr rfl)

/-- C8: whatever top-k value was requested, the limit carried by the single
store call the search issues lies in `[1, 10]`. -/
theorem top_k_always_in_bounds (requested : Int)
    (store : CallKind → CallArgs → StoreResponse) (mode q : String)
    (ff : Option WFilter) (rr : Option RerankDirective) (rc : Bool) :
    ∀ call ∈ (run_search store mode q (top_k requested) ff rr rc).1,
      1 ≤ call.2.limit ∧ call.2.limit ≤ 10 := by
  intro call hcall
  have hb : 1 ≤ top_k requested ∧ top_k requested ≤ 10 := by
    unfold top_k slider_value; omega
  obtain ⟨k, hk⟩ := run_search_calls store mode q (top_k requested) ff rr rc
  rw [hk] at hcall
  simp only [List.mem_singleton] at hcall
  subst hcall
  exact hb

/-- Witness for C8 at a requested value of 999. -/
theorem top_k_always_in_bounds_witness :
    1 ≤ top_k 999 ∧ top_k 999 ≤ 10 :=
  top_k_always_in_bounds 999 sampleStore "Semantic Search" "q" none none false
    (.nearText, ⟨"q", top_k 999, none, none⟩) (by simp [run_search])

/-- C9: a rerank score of exactly `0.0` is treated the same as an absent
score — `if rerank_choice and rerank_score` tests truthiness, so the display
is identical to the no-score display and the reranked line is not shown. -/
theorem zero_rerank_score_treated_as_absent
    (t tp bk au pg vl : String) (dist : ℚ) (g : Option String) :
    display_result ⟨t, tp, bk, au, pg, vl, dist, some 0, g⟩ true =
      display_result ⟨t, tp, bk, au, pg, vl, dist, none, g⟩ true ∧
    ∀ d, display_result ⟨t, tp, bk, au, pg, vl, dist, some 0, g⟩ true = .ok d →
      d.reranked_relevance = none := by
  constructor
  · unfold display_result
    dsimp only
    cases parseMarked pg <;> cases parseMarked vl <;> rfl
  · intro d hd
    obtain ⟨page, volume, hp, hv, hd'⟩ := display_result_eq_ok _ _ _ hd
    subst hd'
    simp [optRatTruthy]

/-- Witness for C9 at a concrete well-formed result with score `0.0`. -/
theorem zero_rerank_score_treated_as_absent_witness :
    ∃ d, display_result ⟨"t", "T", "B", "A", "p12", "v3", 1, some 0, none⟩ true =
        Except.ok d ∧ d.reranked_relevance = none := by
  obtain ⟨d, hd⟩ :
      ∃ d, display_result ⟨"t", "T", "B", "A", "p12", "v3", 1, some 0, none⟩ true =
        Except.ok d := ⟨_, rfl⟩
  exact ⟨d, hd,
    (zero_rerank_score_treated_as_absent "t" "T" "B" "A" "p12" "v3" 1 none).2 d hd⟩

/-- C10: the dispatch is total with the plain semantic branch as default — any
mode string other than the two generative options issues the plain
nearest-neighbor call and shows no grouped summary; no mode reaches an error
branch. -/
theorem unrecognized_mode_defaults_to_semantic
    (store : CallKind → CallArgs → StoreResponse) (mode q : String) (tk : Int)
    (ff : Option WFilter) (rr : Option RerankDirective) (rc : Bool)
    (h1 : mode ≠ "Explained Search") (h2 : mode ≠ "Summary Generation Search") :
    (run_search store mode q tk ff rr rc).1 = [(.nearText, ⟨q, tk, ff, rr⟩)] ∧
    (run_search store mode q tk ff rr rc).2.grouped_summary = none := by
  rw [run_search_default_eq store mode q tk ff rr rc h1 h2]
  exact ⟨rfl, rfl⟩

/-- Witness for C10 at the unrecognized mode string `"Hybrid Search"`. -/
theorem unrecognized_mode_defaults_to_semantic_witness :
    (run_search sampleStore "Hybrid Search" "q" 5 none none false).1 =
      [(.nearText, ⟨"q", 5, none, none⟩)] :=
  (unrecognized_mode_defaults_to_semantic sampleStore "Hybrid Search" "q" 5 none none false
    (by decide) (by decide)).1

end ScholarQuery
